import Mathlib

/-!
Verification of the gmock auto-generation core (src/generateGmock.py).

The Python source is shallowly embedded: each class/function of the source
is translated to an executable Lean definition of the same (or closest
legal) name.  Python lists become Lean lists, Python strings become Lean
strings, raised exceptions become Option/Except values.  Out-of-range list
accesses (which would raise IndexError in Python and are a contract
violation of the external parser per the design) are modelled as loop
exits; no claim below exercises such an input.
-/

set_option autoImplicit false

deriving instance DecidableEq for Except

namespace Gmock

/-! ### Python string primitives, modelled over the character list -/

/-- Python sep.join(xs) for a list of strings. -/
def pyJoin (sep : String) : List String → String
  | [] => ""
  | [x] => x
  | x :: y :: xs => x ++ sep ++ pyJoin sep (y :: xs)

/-- Python s.split(c) for a one-character separator: keeps empty segments. -/
def splitChar (c : Char) : List Char → List (List Char)
  | [] => [[]]
  | x :: xs =>
    match splitChar c xs with
    | [] => [[]]
    | w :: ws => if x = c then [] :: w :: ws else (x :: w) :: ws

/-- Python s.split with the two-character separator given by a colon pair,
as used for qualified names. Greedy left-to-right, non-overlapping. -/
def splitColons : List Char → List (List Char)
  | [] => [[]]
  | ':' :: ':' :: xs =>
    match splitColons xs with
    | [] => [[], []]
    | ws => [] :: ws
  | x :: xs =>
    match splitColons xs with
    | [] => [[x]]
    | w :: ws => (x :: w) :: ws

/-- Split a string on a single-character delimiter, Python str.split. -/
def pySplitChar (s : String) (c : Char) : List String :=
  (splitChar c s.data).map String.mk

/-- Split a qualified name on the colon-pair separator, Python str.split. -/
def pySplitColons (s : String) : List String :=
  (splitColons s.data).map String.mk

/-- Python s.lower() (ASCII identifiers in this code base). -/
def pyLower (s : String) : String := String.mk (s.data.map Char.toLower)

/-- Python s.upper() (ASCII identifiers in this code base). -/
def pyUpper (s : String) : String := String.mk (s.data.map Char.toUpper)

/-- Python s.strip(): drop whitespace from both ends. -/
def pyStrip (s : String) : String :=
  String.mk (((s.data.dropWhile Char.isWhitespace).reverse.dropWhile Char.isWhitespace).reverse)

/-- Python c in s for a single character. -/
def pyHasChar (s : String) (c : Char) : Bool := s.data.contains c

/-- Python s.startswith(p). -/
def pyStartswith (s p : String) : Bool := p.data.isPrefixOf s.data

/-- Python s[0] on a non-empty token; an arbitrary non-angle character on "". -/
def firstChar (s : String) : Char := s.data.headD 'A'

/-- Python s[-1] on a non-empty token; an arbitrary non-angle character on "". -/
def lastChar (s : String) : Char := s.data.getLastD 'A'

/-- Python str.title() restricted to its behavior on this code base's
identifiers: a cased character is upper-cased when the previous character is
not cased, lower-cased otherwise. The flag records whether the previous
character was cased. -/
def pyTitleAux : Bool → List Char → List Char
  | _, [] => []
  | prevCased, c :: cs =>
    let c' := if c.isAlpha then (if prevCased then c.toLower else c.toUpper) else c
    c' :: pyTitleAux c.isAlpha cs

/-- Python s.title(). -/
def pyTitle (s : String) : String := String.mk (pyTitleAux false s.data)

/-- Python os.path.basename for slash-separated paths. -/
def pyBasename (s : String) : String :=
  (pySplitChar s '/').getLastD ""

/-! ### StringTransform (source lines 41-127)

The class wraps one identifier; each property is modelled as a function of
the identifier string.  The ValueError raised by the underscore-prefixed
parts accessor when no delimiter is present is modelled by Option: none is
the raised error and every derived property propagates it. -/

/-- Iteration order of StringTransform.delimiters.values(): kebab, snake, space. -/
def delimiterChars : List Char := ['-', '_', ' ']

/-- The first supported delimiter occurring in the identifier, if any
(source lines 65-68: the loop breaks at the first match). -/
def firstDelimiter (s : String) : Option Char :=
  delimiterChars.find? (fun c => pyHasChar s c)

/-- CPython semantics of the removal loop at source lines 78-80:
iterating over a list by index while calling remove on it.  Each step reads
the element at the current index of the current list, removes the first
occurrence of that value when it is empty or the marker word, and always
advances the index by one, so the element sliding into the removed slot is
skipped.  The fuel starts at the initial length, which bounds the number of
iterations. -/
def removeLoop : Nat → List String → Nat → List String
  | 0, l, _ => l
  | fuel + 1, l, i =>
    match l.get? i with
    | none => l
    | some e =>
      if e = "" ∨ e = "intf" then removeLoop fuel (l.erase e) (i + 1)
      else removeLoop fuel l (i + 1)

/-- StringTransform._string_parts (source lines 56-82). none models the
ValueError "Error: Unsupported delimeter". -/
def _string_parts (s : String) : Option (List String) :=
  match firstDelimiter s with
  | none => none
  | some d =>
    let parts := pySplitChar (pyLower s) d
    some (removeLoop parts.length parts 0)

/-- StringTransform._snake_case. -/
def _snake_case (s : String) : Option String :=
  (_string_parts s).map (pyJoin "_")

/-- StringTransform._kebab_case. -/
def _kebab_case (s : String) : Option String :=
  (_string_parts s).map (pyJoin "-")

/-- StringTransform._space_separated. -/
def _space_separated (s : String) : Option String :=
  (_string_parts s).map (pyJoin " ")

/-- StringTransform._pascal_case: title-case the space-joined parts and
delete the spaces. -/
def _pascal_case (s : String) : Option String :=
  (_space_separated s).map (fun t => String.mk ((pyTitle t).data.filter (fun c => c ≠ ' ')))

/-- StringTransform._camel_case: lower the first character of the pascal
form.  Indexing an empty pascal form raises in Python; modelled as none. -/
def _camel_case (s : String) : Option String :=
  (_pascal_case s).bind (fun p =>
    match p.data with
    | [] => none
    | c :: cs => some (String.mk (c.toLower :: cs)))

/-- StringTransform.gmock_h_file_name. -/
def gmock_h_file_name (s : String) : Option String :=
  (_kebab_case s).map (fun k => k ++ "-" ++ "gmock.h")

/-- StringTransform.gmock_cpp_file_name. -/
def gmock_cpp_file_name (s : String) : Option String :=
  (_kebab_case s).map (fun k => k ++ "-" ++ "gmock.cpp")

/-- StringTransform.gmock_class_name. -/
def gmock_class_name (s : String) : Option String :=
  (_snake_case s).map (fun k => pyUpper k ++ "_" ++ "GMOCK")

/-- StringTransform.header_guard_name. -/
def header_guard_name (s : String) : Option String :=
  (gmock_class_name s).map (fun c => c ++ "_" ++ "H" ++ "_")

/-! ### MockMethod (source lines 130-253) -/

/-- MockMethod: the immutable aggregate built once per discovered method
(source lines 179-195).  The Python parameter name of the last field ends
with a word this development cannot use as a suffix, so it is abbreviated. -/
structure MockMethod where
  result_type : String
  name : String
  is_const : Bool
  is_template : Bool
  args_size : Nat
  args : String
  args_pfx : String
deriving DecidableEq

/-- MockMethod.operators (source lines 138-177): the fixed mapping from
operator spellings to descriptive identifiers, in source order. -/
def MockMethod.operators : List (String × String) :=
  [("operator,", "comma_operator"),
   ("operator!", "logical_not_operator"),
   ("operator!=", "inequality_operator"),
   ("operator%", "modulus_operator"),
   ("operator%=", "modulus_assignment_operator"),
   ("operator&", "address_of_or_bitwise_and_operator"),
   ("operator&&", "logical_and_operator"),
   ("operator&=", "bitwise_and_assignment_operator"),
   ("operator()", "function_call_or_cast_operator"),
   ("operator*", "multiplication_or_dereference_operator"),
   ("operator*=", "multiplication_assignment_operator"),
   ("operator+", "addition_or_unary_plus_operator"),
   ("operator++", "increment1_operator"),
   ("operator+=", "addition_assignment_operator"),
   ("operator-", "subtraction_or_unary_negation_operator"),
   ("operator--", "decrement1_operator"),
   ("operator-=", "subtraction_assignment_operator"),
   ("operator->", "member_selection_operator"),
   ("operator->*", "pointer_to_member_selection_operator"),
   ("operator/", "division_operator"),
   ("operator/=", "division_assignment_operator"),
   ("operator<", "less_than_operator"),
   ("operator<<", "left_shift_operator"),
   ("operator<<=", "left_shift_assignment_operator"),
   ("operator<=", "less_than_or_equal_to_operator"),
   ("operator=", "assignment_operator"),
   ("operator==", "equality_operator"),
   ("operator>", "greater_than_operator"),
   ("operator>=", "greater_than_or_equal_to_operator"),
   ("operator>>", "right_shift_operator"),
   ("operator>>=", "right_shift_assignment_operator"),
   ("operator[]", "array_subscript_operator"),
   ("operator^", "exclusive_or_operator"),
   ("operator^=", "exclusive_or_assignment_operator"),
   ("operator|", "bitwise_inclusive_or_operator"),
   ("operator|=", "bitwise_inclusive_or_assignment_operator"),
   ("operator||", "logical_or_operator"),
   ("operator~", "complement_operator")]

/-- MockMethod._named_args (source lines 197-202): comma-joined synthesized
names prefix0, prefix1, ... -/
def MockMethod._named_args (m : MockMethod) : String :=
  pyJoin ", " ((List.range m.args_size).map (fun i => m.args_pfx ++ Nat.repr i))

/-- Character loop of MockMethod._named_args_with_types (source lines
207-219): walks the argument text, inserting a synthesized name before each
comma that is not nested inside angle brackets or parentheses, and one
after the final argument.  The Bool is the in_type flag, already updated
for the current character as in the source. -/
def namedArgsWithTypesAux (pfx : String) : Bool → Nat → List Char → String
  | _, i, [] => " " ++ pfx ++ Nat.repr i
  | inType, i, c :: cs =>
    let inType' :=
      if c = '<' ∨ c = '(' then true
      else if c = '>' ∨ c = ')' then false
      else inType
    if inType' = false ∧ c = ',' then
      " " ++ pfx ++ Nat.repr i ++ String.mk [c] ++ namedArgsWithTypesAux pfx inType' (i + 1) cs
    else
      String.mk [c] ++ namedArgsWithTypesAux pfx inType' i cs

/-- MockMethod._named_args_with_types (source lines 204-220). -/
def MockMethod._named_args_with_types (m : MockMethod) : String :=
  if m.args = "" then "" else namedArgsWithTypesAux m.args_pfx false 0 m.args.data

/-- MockMethod.to_string (source lines 222-253).  The first branch renders
the forwarding wrapper for an operator spelling and then the mocking macro
under the descriptive name; otherwise only the macro under the method's own
name.  String interpolation of the source is translated to concatenation in
the same order. -/
def MockMethod.to_string (m : MockMethod) (gap : String) : String :=
  match MockMethod.operators.lookup m.name with
  | some opname =>
    gap
      ++ "virtual " ++ m.result_type ++ " " ++ m.name ++ "(" ++ m.args ++ ") "
      ++ (if m.is_const then "const " else "")
      ++ "\x7b " ++ (if pyStrip m.result_type = "void" then "" else "return")
      ++ " " ++ (opname ++ "(" ++ m.args ++ ")") ++ "; \x7d\n"
      ++ gap
      ++ "MOCK_" ++ (if m.is_const then "CONST_" else "") ++ "METHOD"
      ++ Nat.repr m.args_size ++ (if m.is_template then "_T" else "")
      ++ "(" ++ opname ++ ", " ++ m.result_type ++ "(" ++ m.args ++ "));"
  | none =>
    gap
      ++ "MOCK_" ++ (if m.is_const then "CONST_" else "") ++ "METHOD"
      ++ Nat.repr m.args_size ++ (if m.is_template then "_T" else "")
      ++ "(" ++ m.name ++ ", " ++ m.result_type ++ "(" ++ m.args ++ "));"

/-! ### Signature reconstruction (source lines 281-363) -/

/-- Outer scan of MockGenerator._get_arguments_and_num_args (source lines
293-303): walk the token stream keeping the previous token; handle the
call-operator special case (previous token is the operator keyword, current
and next tokens are the empty parenthesis pair) by jumping three positions
ahead within the same iteration; when the token before the (possibly
jumped-to) position is an opening parenthesis, the argument copy starts
there.  Returns the tokens from the copy start on, or none when no opening
parenthesis is found (the Python for-loop then falls through). -/
def findArgsScan : String → List String → Option (List String)
  | _, [] => none
  | prev, t :: rest =>
    if prev = "operator" ∧ t = "(" ∧ rest.headD "" = ")" then
      match rest with
      | _ :: r2 :: rs => if r2 = "(" then some rs else findArgsScan t rest
      | _ => findArgsScan t rest
    else if prev = "(" then some (t :: rest)
    else findArgsScan t rest

/-- Tokens whose first and last characters are closing angle brackets, the
source's test for closing-bracket runs (line 318 and 329). -/
def isCloseRun (t : String) : Bool := firstChar t = '>' ∧ lastChar t = '>'

/-- Inner while loop of MockGenerator._get_arguments_and_num_args (source
lines 304-335): copy tokens until the closing parenthesis, inserting the
spacing of lines 315-320, while maintaining the boolean
in_between_template_type flag of lines 327-333 and counting the commas seen
with the flag off.  Returns the copied text and the comma count. -/
def copyLoop : List String → Bool → String × Nat
  | [], _ => ("", 0)
  | t :: rest, inTemplate =>
    if t = ")" then ("", 0)
    else
      let next := rest.headD ""
      let sp :=
        if ["::", ",", ")", "<", ">"].contains next ∨ ["::", "<"].contains t ∨ isCloseRun next
        then "" else " "
      let inTemplate' :=
        if t = "<" then true
        else if isCloseRun next then false
        else inTemplate
      let commaHere : Nat :=
        if t = "<" then 0
        else if isCloseRun next then 0
        else if t = "," ∧ inTemplate = false then 1 else 0
      let (txt, commas) := copyLoop rest inTemplate'
      (t ++ sp ++ txt, commaHere + commas)

/-- MockGenerator._get_arguments_and_num_args (source lines 281-347). -/
def _get_arguments_and_num_args (tokens : List String) : Nat × String :=
  match tokens with
  | [] => (0, "")
  | t0 :: rest =>
    match findArgsScan t0 rest with
    | none => (0, "")
    | some argTokens =>
      let (txt, commas) := copyLoop argTokens false
      (if txt = "" then 0 else commas + 1, txt)

/-- MockGenerator._get_result_type (source lines 349-363): accumulate
tokens until the method name or the operator keyword, dropping the three
qualifiers and appending a space after const and volatile tokens. -/
def _get_result_type : List String → String → String
  | [], _ => ""
  | t :: rest, name =>
    if t = name ∨ t = "operator" then ""
    else
      (if t = "virtual" ∨ t = "inline" ∨ t = "volatile" then "" else t)
        ++ (if t = "const" ∨ t = "volatile" then " " else "")
        ++ _get_result_type rest name

/-! ### Declaration tree and traversal (source lines 429-472) -/

/-- The cursor kinds the traversal distinguishes (source lines 443 and
459-464); every other libclang kind is the transparent case. -/
inductive CKind where
  | cxxMethod
  | classTemplate
  | structDecl
  | classDecl
  | namespaceDecl
  | other
deriving DecidableEq

/-- A node of the externally supplied declaration tree: kind tag, display
name, spelling, token spellings, constness flag, originating file, and
children in declaration order. -/
inductive CNode where
  | mk (kind : CKind) (displayname spelling : String) (tokens : List String)
       (isConstMethod : Bool) (locFile : String) (children : List CNode) : CNode

/-- One entry of the mock_methods dictionary: the qualified name key, the
file stored as the list's first element at creation, and the appended
MockMethod objects.  Insertion order of the Python dict is the list order. -/
structure IfaceEntry where
  key : String
  file : String
  methods : List MockMethod
deriving DecidableEq

/-- mock_methods.setdefault(expr, [file]).append(m) (source line 448):
append to the existing entry for the key, or create one at the end. -/
def addMethod : List IfaceEntry → String → String → MockMethod → List IfaceEntry
  | [], key, file, m => [⟨key, file, [m]⟩]
  | e :: es, key, file, m =>
    if e.key = key then ⟨e.key, e.file, e.methods ++ [m]⟩ :: es
    else e :: addMethod es key file m

/-- MockGenerator._is_template_class (source lines 274-279). -/
def _is_template_class (e : String) : Bool := pyHasChar e '<'

/-- The qualified-name extension of source line 465, translated from the
and/or chain: an empty accumulator is replaced by the name (when the name
is non-empty), otherwise the name is joined with the colon-pair separator
(omitted when the name is empty). -/
def extendQualifiedName (expr name : String) : String :=
  if expr = "" ∧ name ≠ "" then name
  else expr ++ (if name = "" then "" else "::") ++ name

/-- args_prefix extraction of source line 456: the display name sliced from
one past the spelling's length up to, but excluding, the last character
(Python name[len(spelling)+1 : -1]). -/
def argsPfxOf (displayname spelling : String) : String :=
  String.mk ((displayname.data.drop (spelling.length + 1)).dropLast)

/-- The container kinds of source lines 459-464. -/
def containerKinds : List CKind :=
  [CKind.classTemplate, CKind.structDecl, CKind.classDecl, CKind.namespaceDecl]

mutual

/-- MockGenerator._get_mock_methods (source lines 429-472): a method node
appends one MockMethod under the current qualified name; a container node
extends the qualified name and recurses only when the extended name starts
with the caller-supplied restriction expression; any other node recurses
transparently. -/
def _get_mock_methods (restr : String) :
    CNode → List IfaceEntry → String → List IfaceEntry
  | CNode.mk kind dn sp toks ic file children, entries, expr =>
    if kind = CKind.cxxMethod then
      let na := _get_arguments_and_num_args toks
      addMethod entries expr file
        { result_type := _get_result_type toks sp
          name := sp
          is_const := ic
          is_template := _is_template_class expr
          args_size := na.1
          args := na.2
          args_pfx := argsPfxOf dn sp }
    else if containerKinds.contains kind then
      let expr' := extendQualifiedName expr dn
      if pyStartswith expr' restr then visitChildren restr children entries expr'
      else entries
    else visitChildren restr children entries expr

/-- The child recursion of _get_mock_methods: visit the children in order,
threading the dictionary through. -/
def visitChildren (restr : String) :
    List CNode → List IfaceEntry → String → List IfaceEntry
  | [], entries, _ => entries
  | c :: cs, entries, expr =>
    visitChildren restr cs (_get_mock_methods restr c entries expr) expr

end

/-! ### Replacement-mapping assembly (source lines 365-427 and 486-543) -/

/-- MockGenerator._pretty_template character scan (source lines 365-381):
collect the comma-separated names between angle brackets of the qualified
name's last segment, skipping spaces; the flag records that an opening
angle bracket was seen. -/
def prettyTemplateScan : Bool → List Char → List Char → List String → List String
  | _, [], _, names => names.reverse
  | sawOpen, c :: cs, acc, names =>
    if c = '<' then prettyTemplateScan true cs acc names
    else if c = ',' then prettyTemplateScan sawOpen cs [] (String.mk acc.reverse :: names)
    else if c = '>' then prettyTemplateScan sawOpen cs [] (String.mk acc.reverse :: names)
    else if c = ' ' then prettyTemplateScan sawOpen cs acc names
    else if sawOpen then prettyTemplateScan sawOpen cs (c :: acc) names
    else prettyTemplateScan sawOpen cs acc names

/-- MockGenerator._pretty_template (source lines 365-393). -/
def _pretty_template (expr : String) : String :=
  let names := prettyTemplateScan false ((pySplitColons expr).getLastD "").data [] []
  if names.length > 0 then
    "template<" ++ pyJoin ", " (names.map (fun t => "typename " ++ t)) ++ ">" ++ "\n"
  else ""

/-- MockGenerator._pretty_mock_methods (source lines 395-401). -/
def _pretty_mock_methods (ms : List MockMethod) : String :=
  pyJoin "\n" (ms.map (fun m => MockMethod.to_string m "    "))

/-- MockGenerator._pretty_namespaces_begin (source lines 403-408). -/
def _pretty_namespaces_begin (expr : String) : String :=
  pyJoin "\n" ((pySplitColons expr).dropLast.map (fun ns => "namespace " ++ ns ++ " \x7b"))

/-- MockGenerator._pretty_namespaces_end (source lines 410-415). -/
def _pretty_namespaces_end (expr : String) : String :=
  pyJoin "\n" ((pySplitColons expr).dropLast.map (fun ns => "\x7d // namespace " ++ ns))

/-- MockGenerator._get_interface character scan (source lines 417-427):
the last segment of the qualified name with every angle-bracketed span
removed (the closing bracket itself is also dropped since the flag is
still set when it is examined). -/
def getInterfaceScan : Bool → List Char → List Char
  | _, [] => []
  | ignore, c :: cs =>
    let ignore' := if c = '<' then true else ignore
    let keep := if ignore' then ([] : List Char) else [c]
    let ignore'' := if c = '>' then false else ignore'
    keep ++ getInterfaceScan ignore'' cs

/-- MockGenerator._get_interface (source lines 417-427). -/
def _get_interface (expr : String) : String :=
  String.mk (getInterfaceScan false ((pySplitColons expr).getLastD "").data)

/-- The local helper _get_templated_class_name of generate_data (source
lines 505-521). -/
def _get_templated_class_name (className templateInterfaceName : String) : String :=
  if pyHasChar templateInterfaceName '<' = false then className
  else
    className ++ "<" ++ String.mk ((splitChar '<' templateInterfaceName.data).getLastD [])

/-- The Replacement Mapping (source lines 527-541): the fixed keys of the
dictionary handed to the renderer. -/
structure Replacements where
  mock_file_hpp : String
  mock_file_cpp : String
  generated_dir : String
  guard : String
  file : String
  namespaces_begin : String
  interface : String
  class_name : String
  template_class_name : String
  template_interface : String
  template : String
  mock_methods : String
  namespaces_end : String
deriving DecidableEq

/-- Second half of MockGenerator.generate_data (source lines 495-543),
taking the dictionary produced by the traversal.  The empty dictionary is
the RuntimeError of line 496; a missing delimiter in the interface name is
the ValueError raised by StringTransform while the first derived field is
computed.  Only the first entry of the dictionary is consulted. -/
def generateDataFromEntries (path : String) (entries : List IfaceEntry) :
    Except String Replacements :=
  match entries with
  | [] => Except.error "Error: could not process interface methods."
  | e :: _ =>
    let expr := e.key
    let iname := _get_interface expr
    match _string_parts iname with
    | none => Except.error "Error: Unsupported delimeter"
    | some parts =>
      let kebab := pyJoin "-" parts
      let snake := pyJoin "_" parts
      let className := pyUpper snake ++ "_" ++ "GMOCK"
      Except.ok
        { mock_file_hpp := kebab ++ "-" ++ "gmock.h"
          mock_file_cpp := kebab ++ "-" ++ "gmock.cpp"
          generated_dir := path
          guard := className ++ "_" ++ "H" ++ "_"
          file := pyBasename e.file
          namespaces_begin := _pretty_namespaces_begin expr
          interface := pyUpper snake
          class_name := className
          template_class_name :=
            _get_templated_class_name className ((pySplitColons expr).getLastD "")
          template_interface := (pySplitColons expr).getLastD ""
          template := _pretty_template expr
          mock_methods := _pretty_mock_methods e.methods
          namespaces_end := _pretty_namespaces_end expr }

/-- The traversal as started by generate_data (source line 493): an empty
dictionary and an empty qualified-name accumulator. -/
def getMockMethodsOf (restr : String) (root : CNode) : List IfaceEntry :=
  _get_mock_methods restr root [] ""

/-- MockGenerator.generate_data (source lines 486-543), for the generator
constructed with restriction expression restr and output path. -/
def generate_data (restr path : String) (root : CNode) : Except String Replacements :=
  generateDataFromEntries path (getMockMethodsOf restr root)

/-! ### Claim-side definitions

The following definitions follow the words of the specification rather
than the source; each is compared with the corresponding embedded
definition by the theorems below. -/

/-- Spec notion of top-level commas (glossary and section 3 invariant): a
comma delimits arguments exactly when it is not nested inside any pair of
template angle brackets.  The counter tracks the nesting depth: an opening
angle token increases it, a token consisting of closing angle brackets
decreases it by its length. -/
def topLevelCommaCount : List String → Nat → Nat
  | [], _ => 0
  | t :: rest, depth =>
    let depth' :=
      if t = "<" then depth + 1
      else if t ≠ "" ∧ t.data.all (fun c => c = '>') then depth - t.length
      else depth
    (if t = "," ∧ depth = 0 then 1 else 0) + topLevelCommaCount rest depth'

/-- One token's contribution to the result type according to the claim's
words: the qualifiers virtual, inline and volatile are excluded, and a
space follows each kept const or volatile token — since volatile is never
kept, only const is followed by a space. -/
def claimResultTypePiece (t : String) : String :=
  if t = "virtual" ∨ t = "inline" ∨ t = "volatile" then ""
  else if t = "const" ∨ t = "volatile" then t ++ " "
  else t

/-- Concatenation of a list of strings, used to state the result-type
claims as a map over the scanned prefix of the token stream. -/
def concatAll : List String → String
  | [] => ""
  | x :: xs => x ++ concatAll xs

/-- The result type as the claim states it: all tokens strictly before the
first token equal to the method spelling or the operator keyword,
transformed by the claim's per-token rule. -/
def claimResultType (tokens : List String) (name : String) : String :=
  concatAll ((tokens.takeWhile (fun t => !(t == name || t == "operator"))).map
    claimResultTypePiece)

/-- One token's contribution to the result type as the code actually
behaves (the amended claim): the three qualifiers are excluded from the
output, and a space follows every const or volatile token encountered,
including the excluded volatile. -/
def amendedResultTypePiece (t : String) : String :=
  (if t = "virtual" ∨ t = "inline" ∨ t = "volatile" then "" else t)
    ++ (if t = "const" ∨ t = "volatile" then " " else "")

/-- The result type as the amended claim states it. -/
def amendedResultType (tokens : List String) (name : String) : String :=
  concatAll ((tokens.takeWhile (fun t => !(t == name || t == "operator"))).map
    amendedResultTypePiece)

/-! ### Concrete inputs used by the claim theorems -/

/-- Token stream of a method whose single parameter is a doubly nested
template type: void f(map<map<int, int>, int>). -/
def c1BugTokens : List String :=
  ["void", "f", "(", "map", "<", "map", "<", "int", ",", "int", ">", ",", "int", ">", ")"]

/-- The parameter-list token range of c1BugTokens, between the outer
parentheses. -/
def c1BugArgRange : List String :=
  ["map", "<", "map", "<", "int", ",", "int", ">", ",", "int", ">"]

/-- Token stream of a single-parameter template type: void f(map<int, int>). -/
def c1MapTokens : List String :=
  ["void", "f", "(", "map", "<", "int", ",", "int", ">", ")"]

/-- Declaration tree for the scope-restriction counterexample: a namespace
ns holding a class I_Foo holding one method bar(int). -/
def c2Tree : CNode :=
  CNode.mk CKind.other "" "" [] false ""
    [CNode.mk CKind.namespaceDecl "ns" "ns" [] false ""
      [CNode.mk CKind.classDecl "I_Foo" "I_Foo" [] false ""
        [CNode.mk CKind.cxxMethod "bar(int)" "bar"
          ["virtual", "void", "bar", "(", "int", ")"] false "i-foo.hpp" []]]]

/-- Declaration tree of end-to-end scenario 1 exactly as the claim words
it: the non-template interface ns::IFoo with the single method
void bar(int, std::string). -/
def c4TreeIFoo : CNode :=
  CNode.mk CKind.other "" "" [] false ""
    [CNode.mk CKind.namespaceDecl "ns" "ns" [] false ""
      [CNode.mk CKind.classDecl "IFoo" "IFoo" [] false ""
        [CNode.mk CKind.cxxMethod "bar(int, std::string)" "bar"
          ["virtual", "void", "bar", "(", "int", ",", "std", "::", "string", ")"]
          false "iface/ifoo.hpp" []]]]

/-- The same scenario with an interface name the identifier transformer
accepts: ns::I_Foo (the underscore is one of the three supported
delimiters, and the derived upper snake name is still I_FOO). -/
def c4TreeIFoo2 : CNode :=
  CNode.mk CKind.other "" "" [] false ""
    [CNode.mk CKind.namespaceDecl "ns" "ns" [] false ""
      [CNode.mk CKind.classDecl "I_Foo" "I_Foo" [] false ""
        [CNode.mk CKind.cxxMethod "bar(int, std::string)" "bar"
          ["virtual", "void", "bar", "(", "int", ",", "std", "::", "string", ")"]
          false "iface/i-foo.hpp" []]]]

/-- An empty translation unit: traversal collects nothing. -/
def c8EmptyTree : CNode := CNode.mk CKind.other "" "" [] false "" []

/-- A translation unit with two sibling interfaces, each holding one
method, so traversal collects two qualified names. -/
def c8MultiTree : CNode :=
  CNode.mk CKind.other "" "" [] false ""
    [CNode.mk CKind.classDecl "I_Foo" "I_Foo" [] false ""
      [CNode.mk CKind.cxxMethod "f()" "f" ["virtual", "void", "f", "(", ")"]
        false "a.hpp" []],
     CNode.mk CKind.classDecl "I_Bar" "I_Bar" [] false ""
      [CNode.mk CKind.cxxMethod "g()" "g" ["virtual", "void", "g", "(", ")"]
        false "b.hpp" []]]

/-! ### Helper lemmas -/

/-- An empty restriction expression is a prefix of every qualified name. -/
theorem pyStartswith_empty (s : String) : pyStartswith s "" = true := by
  have h : "".data = [] := rfl
  simp [pyStartswith, h, List.isPrefixOf]

/-- When the previous token is an opening parenthesis, the outer scan stops
and the argument copy starts at the current position. -/
theorem findArgsScan_at_open (x : String) (xs : List String) :
    findArgsScan "(" (x :: xs) = some (x :: xs) := by
  simp [findArgsScan]

/-- The outer scan walks over a prefix holding neither an opening
parenthesis nor the operator keyword, then takes the call-operator skip
over the empty parenthesis pair and lands on the real parameter list. -/
theorem findArgsScan_skips_pre :
    ∀ (pre : List String) (prev : String) (tail : List String),
      ¬ "(" ∈ pre → ¬ "operator" ∈ pre → prev ≠ "(" → prev ≠ "operator" →
      findArgsScan prev (pre ++ "operator" :: "(" :: ")" :: "(" :: tail) = some tail := by
  intro pre
  induction pre with
  | nil =>
    intro prev tail _ _ hp1 hp2
    simp [findArgsScan, hp1, hp2]
  | cons p ps ih =>
    intro prev tail h1 h2 hp1 hp2
    have hps1 : ¬ "(" ∈ ps := fun h => h1 (List.mem_cons_of_mem _ h)
    have hps2 : ¬ "operator" ∈ ps := fun h => h2 (List.mem_cons_of_mem _ h)
    have hq1 : p ≠ "(" := fun h => h1 (h ▸ List.mem_cons_self _ _)
    have hq2 : p ≠ "operator" := fun h => h2 (h ▸ List.mem_cons_self _ _)
    simp only [List.cons_append]
    simp [findArgsScan, hp1, hp2]
    exact ih p tail hps1 hps2 hq1 hq2

/-! ### Claim theorems -/

/-- Claim C1 (code bug): the claim states that the reconstructed argument
count equals the number of top-level commas (commas not nested inside
angle brackets) plus one for non-empty argument text.  The code instead
keeps a boolean flag that is cleared at the first closing angle bracket,
so for the single parameter map<map<int, int>, int> — whose parameter-list
token range contains zero top-level commas, making the claimed count
0 + 1 = 1 — the code counts the depth-one comma after the inner closing
bracket and returns argument count 2.  The claim's own headline example
map<int, int> does yield 1.  This contradicts the source's comment that
commas between angle brackets must not be taken into account. -/
theorem c1_theorem :
    _get_arguments_and_num_args c1BugTokens = (2, "map<map<int, int>, int>")
    ∧ topLevelCommaCount c1BugArgRange 0 = 0
    ∧ _get_arguments_and_num_args c1MapTokens = (1, "map<int, int>") := by decide

/-- Claim C2, counterexample: with restriction expression "ns" the
traversal recurses into the container with extended qualified name
"ns::I_Foo" and collects the method beneath it, although "ns::I_Foo" is
not a prefix of the restriction expression "ns" — the claim's direction of
the prefix test is the reverse of the code's expr.startswith(self.expr). -/
theorem c2_counterexample :
    getMockMethodsOf "ns" c2Tree
      = [⟨"ns::I_Foo", "i-foo.hpp", [⟨"void", "bar", false, false, 1, "int", "int"⟩]⟩]
    ∧ pyStartswith "ns" "ns::I_Foo" = false := by decide

/-- Claim C2, amended: a container node is recursed into only if the
caller-supplied scope-restriction expression is a string prefix of (or
equal to) the extended qualified name; a container whose extended name
does not start with the restriction contributes nothing, and with the
empty restriction every container is traversed (the guard always passes
and the children are visited). -/
theorem c2_theorem :
    (∀ (restr : String) (kind : CKind) (dn sp : String) (toks : List String)
        (ic : Bool) (file : String) (children : List CNode)
        (entries : List IfaceEntry) (expr : String),
        containerKinds.contains kind = true →
        pyStartswith (extendQualifiedName expr dn) restr = false →
        _get_mock_methods restr (CNode.mk kind dn sp toks ic file children) entries expr
          = entries)
    ∧ (∀ (kind : CKind) (dn sp : String) (toks : List String) (ic : Bool)
        (file : String) (children : List CNode) (entries : List IfaceEntry)
        (expr : String),
        containerKinds.contains kind = true →
        _get_mock_methods "" (CNode.mk kind dn sp toks ic file children) entries expr
          = visitChildren "" children entries (extendQualifiedName expr dn)) := by
  constructor
  · intro restr kind dn sp toks ic file children entries expr hk hpre
    cases kind <;> simp_all [_get_mock_methods, containerKinds]
  · intro kind dn sp toks ic file children entries expr hk
    cases kind <;> simp_all [_get_mock_methods, containerKinds, pyStartswith_empty]

/-- Claim C2, witness: a namespace container pruned under a non-matching
restriction leaves the dictionary unchanged, and under the empty
restriction the same container is traversed into its children. -/
theorem c2_witness :
    _get_mock_methods "zzz" (CNode.mk CKind.namespaceDecl "ns" "ns" [] false "" []) [] "" = []
    ∧ _get_mock_methods "" (CNode.mk CKind.namespaceDecl "ns" "ns" [] false "" []) [] ""
        = visitChildren "" [] [] "ns" := by
  refine ⟨c2_theorem.1 "zzz" CKind.namespaceDecl "ns" "ns" [] false "" [] [] ""
    (by decide) (by decide), ?_⟩
  exact c2_theorem.2 CKind.namespaceDecl "ns" "ns" [] false "" [] [] "" (by decide)

/-- Claim C3: when the token stream spells the call operator — the
operator keyword immediately followed by the empty parenthesis pair before
the true parameter-list opener, with no earlier opening parenthesis or
operator keyword — argument reconstruction skips the empty pair, and the
returned count and text are exactly those of the real parameter list, i.e.
they equal the reconstruction for a plainly named method with the same
parameter-list tokens. -/
theorem c3_theorem (pre inner post : List String)
    (h1 : ¬ "(" ∈ pre) (h2 : ¬ "operator" ∈ pre) :
    _get_arguments_and_num_args
        (pre ++ "operator" :: "(" :: ")" :: "(" :: (inner ++ ")" :: post))
      = _get_arguments_and_num_args ("m" :: "(" :: (inner ++ ")" :: post)) := by
  obtain ⟨x, xs, hX⟩ : ∃ x xs, inner ++ ")" :: post = x :: xs := by
    cases inner with
    | nil => exact ⟨_, _, rfl⟩
    | cons a l => exact ⟨_, _, rfl⟩
  have hrhs : findArgsScan "m" ("(" :: (inner ++ ")" :: post))
      = some (inner ++ ")" :: post) := by
    have h0 : findArgsScan "m" ("(" :: (inner ++ ")" :: post))
        = findArgsScan "(" (inner ++ ")" :: post) := by
      simp [findArgsScan]
    rw [h0, hX, findArgsScan_at_open]
  cases pre with
  | nil =>
    have hscan : findArgsScan "operator" ("(" :: ")" :: "(" :: (inner ++ ")" :: post))
        = some (inner ++ ")" :: post) := by
      simp [findArgsScan]
    simp only [List.nil_append, _get_arguments_and_num_args, hscan, hrhs]
  | cons p ps =>
    have hps1 : ¬ "(" ∈ ps := fun h => h1 (List.mem_cons_of_mem _ h)
    have hps2 : ¬ "operator" ∈ ps := fun h => h2 (List.mem_cons_of_mem _ h)
    have hq1 : p ≠ "(" := fun h => h1 (h ▸ List.mem_cons_self _ _)
    have hq2 : p ≠ "operator" := fun h => h2 (h ▸ List.mem_cons_self _ _)
    have hscan := findArgsScan_skips_pre ps p (inner ++ ")" :: post) hps1 hps2 hq1 hq2
    simp only [List.cons_append, _get_arguments_and_num_args, hscan, hrhs]

/-- Claim C3, witness: the declaration int operator()(int) yields argument
count 1 and argument text int, the reconstruction of the real parameter
list rather than of the empty pair. -/
theorem c3_witness :
    _get_arguments_and_num_args ["virtual", "int", "operator", "(", ")", "(", "int", ")"]
      = _get_arguments_and_num_args ["m", "(", "int", ")"]
    ∧ _get_arguments_and_num_args ["m", "(", "int", ")"] = (1, "int") := by
  refine ⟨?_, by decide⟩
  exact c3_theorem ["virtual", "int"] ["int"] [] (by decide) (by decide)

/-- Claim C4, counterexample: on the declaration tree of the claim's own
scenario — the non-template interface ns::IFoo with the single method
void bar(int, std::string) — generate_data does not produce a Replacement
Mapping at all: the interface name IFoo contains none of the three
supported delimiters, so the identifier transformer raises its ValueError
while the first derived field is computed. -/
theorem c4_counterexample :
    generate_data "" "." c4TreeIFoo = Except.error "Error: Unsupported delimeter" := by decide

/-- Claim C4, amended: for the same scenario with an interface name the
identifier transformer accepts, ns::I_Foo, generate_data produces the
Replacement Mapping with interface field I_FOO and a mock_methods field
holding exactly one rendered line with argument count 2 and reconstructed
argument text consisting of the two parameter types (parameter names are
not part of the reconstructed text). -/
theorem c4_theorem :
    generate_data "" "." c4TreeIFoo2 = Except.ok
      { mock_file_hpp := "i-foo-gmock.h"
        mock_file_cpp := "i-foo-gmock.cpp"
        generated_dir := "."
        guard := "I_FOO_GMOCK_H_"
        file := "i-foo.hpp"
        namespaces_begin := "namespace ns \x7b"
        interface := "I_FOO"
        class_name := "I_FOO_GMOCK"
        template_class_name := "I_FOO_GMOCK"
        template_interface := "I_Foo"
        template := ""
        mock_methods := "    MOCK_METHOD2(bar, void(int, std::string));"
        namespaces_end := "\x7d // namespace ns" } := by decide

/-- Claim C5 (code bug): the claim states that every empty and every intf
segment is discarded, including consecutive ones.  The removal loop
mutates the list while iterating over it by index, so removing a segment
skips the element sliding into its slot: for intf_intf_foo the second intf
segment survives, and for a___b an empty segment survives, contradicting
the source's own comment that these segments are removed. -/
theorem c5_theorem :
    _string_parts "intf_intf_foo" = some ["intf", "foo"]
    ∧ _string_parts "a___b" = some ["a", "", "b"] := by decide

/-- Claim C6, counterexample: for the token stream volatile int f with
method spelling f, the claim's rule — a space after each kept
const/volatile token, and volatile is never kept — yields int, but the
code appends the space for the dropped volatile token as well and returns
a string with a leading space. -/
theorem c6_counterexample :
    _get_result_type ["volatile", "int", "f"] "f" = " int"
    ∧ claimResultType ["volatile", "int", "f"] "f" = "int"
    ∧ _get_result_type ["volatile", "int", "f"] "f"
        ≠ claimResultType ["volatile", "int", "f"] "f" := by decide

/-- Claim C6, amended: the extracted result type is the concatenation, in
token order, of all tokens strictly before the first token equal to the
method's spelling or to the operator keyword, excluding the qualifiers
virtual, inline and volatile, with a single space inserted after each
const or volatile token encountered — including the excluded volatile —
and no other inserted spacing. -/
theorem c6_theorem (tokens : List String) (name : String) :
    _get_result_type tokens name = amendedResultType tokens name := by
  induction tokens with
  | nil => rfl
  | cons t rest ih =>
    by_cases h : t = name ∨ t = "operator"
    · rcases h with h | h <;>
        simp [_get_result_type, amendedResultType, h, List.takeWhile_cons, concatAll]
    · have hb : (!(t == name || t == "operator")) = true := by
        push_neg at h
        simp [h.1, h.2]
      simp only [_get_result_type, amendedResultType, amendedResultTypePiece,
        List.takeWhile_cons, hb, if_neg h, List.map_cons, concatAll, ih, if_true]

/-- Claim C7: when the method name is a key of the operator table,
to_string renders first the virtual forwarding wrapper carrying the
original operator spelling and signature, whose body delegates to the
descriptive-named method and contains the return keyword exactly when the
stripped result type is not the string void, and then the mocking macro
line using the descriptive name in place of the operator spelling. -/
theorem c7_theorem (m : MockMethod) (gap opname : String)
    (h : MockMethod.operators.lookup m.name = some opname) :
    MockMethod.to_string m gap =
      gap
        ++ "virtual " ++ m.result_type ++ " " ++ m.name ++ "(" ++ m.args ++ ") "
        ++ (if m.is_const then "const " else "")
        ++ "\x7b " ++ (if pyStrip m.result_type = "void" then "" else "return")
        ++ " " ++ (opname ++ "(" ++ m.args ++ ")") ++ "; \x7d\n"
        ++ gap
        ++ "MOCK_" ++ (if m.is_const then "CONST_" else "") ++ "METHOD"
        ++ Nat.repr m.args_size ++ (if m.is_template then "_T" else "")
        ++ "(" ++ opname ++ ", " ++ m.result_type ++ "(" ++ m.args ++ "));" := by
  unfold MockMethod.to_string
  rw [h]

/-- Claim C7, witness: the equality operator with result type bool renders
the wrapper with a return and then the macro under equality_operator. -/
theorem c7_witness :
    MockMethod.operators.lookup "operator==" = some "equality_operator"
    ∧ MockMethod.to_string ⟨"bool", "operator==", false, false, 1, "const Foo&", "a"⟩ "    "
        = "    virtual bool operator==(const Foo&) \x7b return equality_operator(const Foo&); \x7d\n    MOCK_METHOD1(equality_operator, bool(const Foo&));" := by
  refine ⟨by decide, ?_⟩
  rw [ c7_theorem ⟨"bool", "operator==", false, false, 1, "const Foo&", "a"⟩ "    "
    "equality_operator" (by decide)]
  decide

/-- Claim C8: when the traversal collects no qualified interface name,
generate_data fails with the no-interface-found error and no Replacement
Mapping is produced; when it collects one or more, the mapping is built
from the first entry in discovery order and the later entries are
ignored. -/
theorem c8_theorem (restr path : String) (root : CNode) :
    (getMockMethodsOf restr root = [] →
      generate_data restr path root
        = Except.error "Error: could not process interface methods.")
    ∧ (∀ (e : IfaceEntry) (rest : List IfaceEntry),
        getMockMethodsOf restr root = e :: rest →
        generate_data restr path root = generateDataFromEntries path [e]) := by
  constructor
  · intro h
    simp only [generate_data, h]
    rfl
  · intro e rest h
    simp only [generate_data, h]
    rfl

/-- Claim C8, witness: an empty translation unit fails with the
no-interface-found error, and a unit with two discovered interfaces is
processed exactly as if only the first had been discovered. -/
theorem c8_witness :
    generate_data "" "." c8EmptyTree
      = Except.error "Error: could not process interface methods."
    ∧ generate_data "" "." c8MultiTree
        = generateDataFromEntries "."
            [⟨"I_Foo", "a.hpp", [⟨"void", "f", false, false, 0, "", ""⟩]⟩] :=
  ⟨( c8_theorem "" "." c8EmptyTree).1 (by decide),
   ( c8_theorem "" "." c8MultiTree).2
     ⟨"I_Foo", "a.hpp", [⟨"void", "f", false, false, 0, "", ""⟩]⟩
     [⟨"I_Bar", "b.hpp", [⟨"void", "g", false, false, 0, "", ""⟩]⟩] (by decide)⟩

/-- Claim C9: the identifier transformer fails exactly when the identifier
contains none of the three delimiters, and in that case none of the
derived naming views is produced. -/
theorem c9_theorem (s : String) :
    ((_string_parts s = none) ↔
      (pyHasChar s '-' = false ∧ pyHasChar s '_' = false ∧ pyHasChar s ' ' = false))
    ∧ (_string_parts s = none →
        _snake_case s = none ∧ _kebab_case s = none ∧ _space_separated s = none
          ∧ _pascal_case s = none ∧ _camel_case s = none
          ∧ gmock_h_file_name s = none ∧ gmock_cpp_file_name s = none
          ∧ gmock_class_name s = none ∧ header_guard_name s = none) := by
  have h1 : (_string_parts s = none) ↔ (firstDelimiter s = none) := by
    cases hd : firstDelimiter s <;> simp [_string_parts, hd]
  constructor
  · rw [h1]
    simp [firstDelimiter, delimiterChars, List.find?_eq_none]
  · intro h
    refine ⟨?_, ?_, ?_, ?_, ?_, ?_, ?_, ?_, ?_⟩ <;>
      simp [_snake_case, _kebab_case, _space_separated, _pascal_case, _camel_case,
        gmock_h_file_name, gmock_cpp_file_name, gmock_class_name, header_guard_name, h]

/-- Claim C9, witness: the single-word identifier IFoo contains no
delimiter, so the transformer fails and the snake view is not produced. -/
theorem c9_witness : _string_parts "IFoo" = none ∧ _snake_case "IFoo" = none := by
  have h := ( c9_theorem "IFoo").1.mpr (by decide)
  exact ⟨h, ( ( c9_theorem "IFoo").2 h).1⟩

/-- Claim C10: rendering never reads the parameter-name prefix — two
MockMethod values differing only in that field render identically for
every gap, so the mock text never contains the synthesized prefix-index
parameter names. -/
theorem c10_theorem (rt nm : String) (c t : Bool) (n : Nat) (a p1 p2 gap : String) :
    MockMethod.to_string ⟨rt, nm, c, t, n, a, p1⟩ gap
      = MockMethod.to_string ⟨rt, nm, c, t, n, a, p2⟩ gap := rfl

end Gmock
